import Mathlib

/-!
Verification of `shakemap_aqms/coremods/aqms_notify.py` (class
`NotificationModule`).

The module is shallowly embedded: Python strings become `String` (lists of
characters underneath), the relevant parts of the Python standard library
(`str.lower`, the `in` substring test, `str.replace`, `str.split`,
list slicing) are modelled as executable Lean functions, the filesystem
and the subprocess launcher are modelled as an explicit environment, and
`execute` becomes a pure function producing a trace of its observable
behaviour (raised exception, whether the AQMS configuration was read,
which action names the loop considered, which argument vectors were
handed to `subprocess.run`, and the log records emitted).
-/

namespace AqmsNotify

/-- Characters on which Python `str.split()` (no separator) splits:
space, tab, newline, carriage return, vertical tab, form feed. -/
def pyIsSpace (c : Char) : Bool :=
  c = ' ' || c = '\t' || c = '\n' || c = '\r' || c = Char.ofNat 11 || c = Char.ofNat 12

/-- Python `str.lower()` (ASCII range; event ids and network codes are ASCII). -/
def pyLower (s : String) : String :=
  String.mk (s.data.map Char.toLower)

/-- Python `pat in s` for strings: `pat` occurs as a contiguous substring
of `s` (the empty pattern always occurs). -/
def pyStrIn (pat : List Char) : List Char → Bool
  | [] => pat.isEmpty
  | c :: rest => pat.isPrefixOf (c :: rest) || pyStrIn pat rest

/-- Python `s[2:]`: drop the first two characters (shorter strings give
a shorter or empty result, no error). -/
def pySlice2 (s : String) : String :=
  String.mk (s.data.drop 2)

/-- Python `str.replace(pat, repl)` for a nonempty pattern: scan left to
right, replacing each (non-overlapping, leftmost) occurrence of `pat` by
`repl` and continuing after the replaced segment.  (For an empty `pat`
this model is the identity; the program only ever replaces the nonempty
literal pattern.) -/
def pyReplace (pat repl : List Char) : List Char → List Char
  | [] => []
  | c :: rest =>
    if pat ≠ [] ∧ pat.isPrefixOf (c :: rest) then
      repl ++ pyReplace pat repl ((c :: rest).drop pat.length)
    else
      c :: pyReplace pat repl rest
termination_by s => s.length
decreasing_by
  · simp only [List.length_drop, List.length_cons]
    have hp : 1 ≤ pat.length := by
      rcases pat with _ | ⟨p, ps⟩
      · simp at *
      · simp
    omega
  · simp

/-- Split on each (non-overlapping, leftmost) occurrence of a nonempty
`pat`, like Python `str.split(pat)`: the pieces between occurrences, in
order, with empty pieces kept.  Used to state what `pyReplace` does to
every occurrence. -/
def pySplitOnPat (pat : List Char) : List Char → List (List Char)
  | [] => [[]]
  | c :: rest =>
    if pat ≠ [] ∧ pat.isPrefixOf (c :: rest) then
      [] :: pySplitOnPat pat ((c :: rest).drop pat.length)
    else
      match pySplitOnPat pat rest with
      | [] => [[c]]
      | piece :: pieces => (c :: piece) :: pieces
termination_by s => s.length
decreasing_by
  · simp only [List.length_drop, List.length_cons]
    have hp : 1 ≤ pat.length := by
      rcases pat with _ | ⟨p, ps⟩
      · simp at *
      · simp
    omega
  · simp

/-- Python `str.split()` with no separator: maximal runs of
non-whitespace characters, runs of whitespace discarded. -/
def pyWords : List Char → List (List Char)
  | [] => []
  | c :: rest =>
    if pyIsSpace c then
      pyWords rest
    else
      (c :: rest.takeWhile (fun d => !(pyIsSpace d))) ::
        pyWords (rest.dropWhile (fun d => !(pyIsSpace d)))
termination_by s => s.length
decreasing_by
  · simp
  · have h := (List.dropWhile_sublist (l := rest) (fun d => !(pyIsSpace d))).length_le
    simp only [List.length_cons]
    omega

/-- Python `'%s' % cmd` where `cmd` is a list of strings: the list repr,
e.g. `['flag', 'value']` (quote-escaping inside elements is elided; the
configured commands contain no quotes). -/
def pyListRepr (xs : List String) : String :=
  let q := String.singleton (Char.ofNat 39)
  "[" ++ String.intercalate ", " (xs.map fun s => q ++ s ++ q) ++ "]"

/-- One entry of the `[notify]` section of the AQMS configuration: a
mandatory `command` template and an optional `undo_command` template. -/
structure Action where
  command : String
  undo_command : Option String
deriving DecidableEq, Repr

/-- The parsed origin (`Origin.fromFile(datafile)`): only the network id
matters to this module (`origin.time` feeds `evtime`, a variable that is
never used afterwards, so it is elided). -/
structure Origin where
  netid : String
deriving DecidableEq, Repr

/-- Exceptions `execute` can raise.  The message strings interpolate
filesystem paths and are elided; the exception class is kept. -/
inductive PyError where
  | notADirectoryError
  | fileNotFoundError
  | attributeError
deriving DecidableEq, Repr

/-- A record emitted on `self.logger`. -/
inductive LogEntry where
  | info (msg : String)
  | warn (msg : String)
deriving DecidableEq, Repr

/-- The environment `execute` runs against: whether the event data
directory `<data_path>/<eventid>/current` exists, whether `event.xml`
exists inside it, the origin parsed from that file, the `[notify]`
section of the AQMS configuration (an association list keyed by action
name, as returned by `get_aqms_config()`), and an oracle giving the
outcome of `subprocess.run` on an argument vector: either an exception
message, or a return code together with the `str()` form of the captured
stdout. -/
structure Env where
  dirExists : Bool
  eventFileExists : Bool
  origin : Origin
  notify : List (String × Action)
  run : List String → Except String (Int × String)

/-- The attributes of a `NotificationModule` instance that this module
reads: `_eventid`, and `cancel`, which is `none` when the attribute was
never assigned (so that reading it raises `AttributeError`). -/
structure ModuleState where
  eventid : String
  cancel : Option Bool
deriving DecidableEq, Repr

/-- Everything observable about one call to `execute`: the exception
propagated to the caller (if any), whether `get_aqms_config()` was
called, the action names the loop body started processing, the argument
vectors passed to `subprocess.run`, and the log records, each in
program order. -/
structure Trace where
  error : Option PyError
  configRead : Bool
  considered : List String
  attempted : List (List String)
  log : List LogEntry
deriving DecidableEq, Repr

/-- `NotificationModule.__init__(self, eventid, cancel=False)`: stores
the event id; the `cancel` attribute is assigned only when the argument
is not `None` (`if cancel is not None: self.cancel = cancel`). -/
def NotificationModule.init (eventid : String) (cancel : Option Bool) : ModuleState :=
  { eventid := eventid, cancel := cancel }

/-- Lines 60-64 of `execute`:
`aqms_eventid = self._eventid[2:] if origin.netid.lower() in self._eventid
else self._eventid`. -/
def deriveAqmsId (netid eventid : String) : String :=
  if pyStrIn (pyLower netid).data eventid.data then pySlice2 eventid else eventid

/-- `sorted(config['notify'].keys())` followed by the dict lookups
`config['notify'][action_name]`: the association list reordered by
ascending key. -/
def sortedNotify (notify : List (String × Action)) : List (String × Action) :=
  notify.mergeSort (fun a b => a.1 ≤ b.1)

/-- `cmd = cmd.replace("<EVENT>", aqms_eventid); cmd = cmd.split()`. -/
def buildArgv (aqmsId : String) (template : String) : List String :=
  (pyWords (pyReplace "<EVENT>".data aqmsId.data template.data)).map String.mk

/-- The `for action_name in sorted(config['notify'].keys())` loop of
`execute`.  Each iteration picks `undo_command` when cancelling (breaking
silently when it is absent) or `command` otherwise, substitutes the event
id, splits, and calls `subprocess.run`: on success it logs two `info`
records and returns, on an exception it logs two `warn` records and
breaks — so no branch ever reaches a second iteration. -/
def notifyLoop (cancel : Bool) (aqmsId : String)
    (run : List String → Except String (Int × String)) :
    List (String × Action) → Trace
  | [] => { error := none, configRead := true, considered := [],
            attempted := [], log := [] }
  | (name, act) :: _rest =>
    match (if cancel then act.undo_command else some act.command) with
    | none =>
      -- nothing to do: break
      { error := none, configRead := true, considered := [name],
        attempted := [], log := [] }
    | some template =>
      let cmd := buildArgv aqmsId template
      match run cmd with
      | Except.ok (rc, outStr) =>
        -- log the command and the completed result, then return
        { error := none, configRead := true, considered := [name],
          attempted := [cmd],
          log := [LogEntry.info ("The command to we ran is: " ++
                    String.intercalate " " cmd),
                  LogEntry.info ("Return code: " ++ toString rc ++
                    ", stdout is: " ++ outStr)] }
      | Except.error err =>
        -- warn and break
        { error := none, configRead := true, considered := [name],
          attempted := [cmd],
          log := [LogEntry.warn ("Error running command: " ++ pyListRepr cmd),
                  LogEntry.warn ("Error: " ++ err)] }

/-- `NotificationModule.execute`: check the data directory and
`event.xml`, parse the origin and derive the AQMS event id, read the
AQMS configuration, and run the notification loop.  When the `cancel`
attribute was never assigned and the loop body runs at least once,
reading `self.cancel` raises `AttributeError` before anything else in
the body. -/
def NotificationModule.execute (st : ModuleState) (env : Env) : Trace :=
  if ¬ env.dirExists then
    { error := some PyError.notADirectoryError, configRead := false,
      considered := [], attempted := [], log := [] }
  else if ¬ env.eventFileExists then
    { error := some PyError.fileNotFoundError, configRead := false,
      considered := [], attempted := [], log := [] }
  else
    let aqmsId := deriveAqmsId env.origin.netid st.eventid
    match st.cancel with
    | none =>
      if (sortedNotify env.notify).isEmpty then
        { error := none, configRead := true, considered := [],
          attempted := [], log := [] }
      else
        { error := some PyError.attributeError, configRead := true,
          considered := [], attempted := [], log := [] }
    | some cancel =>
      notifyLoop cancel aqmsId env.run (sortedNotify env.notify)

/-- A token consumed as this module's option: the cancel flag
(`-c` / `--cancel`), matched verbatim. -/
def isCancelTok (a : String) : Bool :=
  a = "-c" || a = "--cancel"

/-- The token handling of the `argparse` parser built in `parseArgs`:
one optional flag `-c` / `--cancel` (`store_true`, default `False`) and
a positional `rem` with `nargs=argparse.REMAINDER` that swallows
everything from the first non-flag token on.  Returns the parsed
`(args.cancel, args.rem)`. -/
def parseCancelArgs : List String → Bool × List String
  | [] => (false, [])
  | a :: rest =>
    if isCancelTok a then
      (true, (parseCancelArgs rest).2)
    else
      (false, a :: rest)

/-- `NotificationModule.parseArgs`: parse `arglist`, assign
`self.cancel = args.cancel`, return `args.rem`. -/
def NotificationModule.parseArgs (st : ModuleState) (arglist : List String) :
    ModuleState × List String :=
  let parsed := parseCancelArgs arglist
  ({ st with cancel := some parsed.1 }, parsed.2)

/-! ### Properties of the modelled Python string primitives -/

/-- `pyStrIn` decides substring occurrence. -/
theorem pyStrIn_iff (pat s : List Char) :
    pyStrIn pat s = true ↔ List.IsInfix pat s := by
  induction s with
  | nil =>
    simp [pyStrIn, List.isEmpty_iff, List.infix_nil]
  | cons c rest ih =>
    simp only [pyStrIn, Bool.or_eq_true, List.isPrefixOf_iff_prefix, ih,
      List.infix_cons_iff]

theorem pySplitOnPat_ne_nil (pat s : List Char) : pySplitOnPat pat s ≠ [] := by
  induction s using pySplitOnPat.induct pat with
  | case1 => simp [pySplitOnPat]
  | case2 c rest h ih =>
    rw [pySplitOnPat, if_pos h]
    simp
  | case3 c rest h hnil ih => exact absurd hnil ih
  | case4 c rest h piece pieces heq ih =>
    rw [pySplitOnPat, if_neg h, heq]
    simp

theorem intercalate_single (sep x : List Char) :
    List.intercalate sep [x] = x := by
  simp [List.intercalate]

theorem intercalate_cons₂ (sep x y : List Char) (t : List (List Char)) :
    List.intercalate sep (x :: y :: t) =
      x ++ sep ++ List.intercalate sep (y :: t) := by
  simp [List.intercalate, List.intersperse_cons₂, List.append_assoc]

/-- Joining the pieces back with the pattern recovers the original
string: `pySplitOnPat` splits exactly at occurrences of the pattern. -/
theorem intercalate_pySplitOnPat (pat s : List Char) :
    List.intercalate pat (pySplitOnPat pat s) = s := by
  induction s using pySplitOnPat.induct pat with
  | case1 => simp [pySplitOnPat, intercalate_single]
  | case2 c rest h ih =>
    rw [pySplitOnPat, if_pos h]
    obtain ⟨t, ht⟩ := List.isPrefixOf_iff_prefix.mp h.2
    rcases hsp : pySplitOnPat pat (List.drop pat.length (c :: rest)) with _ | ⟨p, ps⟩
    · exact absurd hsp (pySplitOnPat_ne_nil pat _)
    · rw [hsp] at ih
      rw [intercalate_cons₂, List.nil_append, ih]
      have hdrop : List.drop pat.length (c :: rest) = t := by
        rw [← ht, List.drop_left]
      rw [hdrop, ht]
  | case3 c rest h hnil ih => exact absurd hnil (pySplitOnPat_ne_nil pat rest)
  | case4 c rest h piece pieces heq ih =>
    rw [pySplitOnPat, if_neg h, heq]
    rw [heq] at ih
    rcases pieces with _ | ⟨q, qs⟩
    · rw [intercalate_single] at ih ⊢
      rw [ih]
    · rw [intercalate_cons₂] at ih ⊢
      simp only [List.cons_append, List.append_assoc] at ih ⊢
      rw [ih]

/-- `pyReplace` is split-on-pattern followed by joining with the
replacement: every occurrence of the pattern is replaced by the
replacement, and nothing else changes. -/
theorem pyReplace_eq_intercalate (pat repl s : List Char) :
    pyReplace pat repl s = List.intercalate repl (pySplitOnPat pat s) := by
  induction s using pySplitOnPat.induct pat with
  | case1 => simp [pySplitOnPat, pyReplace, intercalate_single]
  | case2 c rest h ih =>
    rw [pySplitOnPat, if_pos h, pyReplace, if_pos h]
    rcases hsp : pySplitOnPat pat (List.drop pat.length (c :: rest)) with _ | ⟨p, ps⟩
    · exact absurd hsp (pySplitOnPat_ne_nil pat _)
    · rw [hsp] at ih
      rw [intercalate_cons₂, List.nil_append, ih]
  | case3 c rest h hnil ih => exact absurd hnil (pySplitOnPat_ne_nil pat rest)
  | case4 c rest h piece pieces heq ih =>
    rw [pySplitOnPat, if_neg h, heq, pyReplace, if_neg h, ih, heq]
    rcases pieces with _ | ⟨q, qs⟩
    · rw [intercalate_single, intercalate_single]
    · rw [intercalate_cons₂, intercalate_cons₂]
      simp [List.append_assoc]

/-! ### Structural facts about the notification loop -/

/-- Every branch of the loop body ends in `return` or `break`, so at
most one argument vector is ever passed to `subprocess.run`. -/
theorem notifyLoop_attempted_le_one (cancel : Bool) (aqmsId : String)
    (run : List String → Except String (Int × String))
    (l : List (String × Action)) :
    (notifyLoop cancel aqmsId run l).attempted.length ≤ 1 := by
  rcases l with _ | ⟨⟨name, act⟩, rest⟩
  · simp [notifyLoop]
  · rcases hc : (if cancel then act.undo_command else some act.command) with _ | template
    · simp [notifyLoop, hc]
    · rcases hr : run (buildArgv aqmsId template) with err | ⟨rc, outStr⟩
      · simp [notifyLoop, hc, hr]
      · simp [notifyLoop, hc, hr]

/-- Whatever happens in its body, the loop only ever starts processing
the first action of the (sorted) list it is given. -/
theorem notifyLoop_considered (cancel : Bool) (aqmsId : String)
    (run : List String → Except String (Int × String))
    (n : String) (a : Action) (rest : List (String × Action)) :
    (notifyLoop cancel aqmsId run ((n, a) :: rest)).considered = [n] := by
  rcases hc : (if cancel then a.undo_command else some a.command) with _ | template
  · simp [notifyLoop, hc]
  · rcases hr : run (buildArgv aqmsId template) with err | ⟨rc, outStr⟩
    · simp [notifyLoop, hc, hr]
    · simp [notifyLoop, hc, hr]

/-- `parseCancelArgs` consumes exactly the leading run of cancel-flag
tokens: the flag is set iff that run is nonempty and the remainder is
the untouched rest of the argument list. -/
theorem parseCancelArgs_eq (arglist : List String) :
    parseCancelArgs arglist =
      (!(arglist.takeWhile isCancelTok).isEmpty, arglist.dropWhile isCancelTok) := by
  induction arglist with
  | nil => rfl
  | cons a rest ih =>
    cases hc : isCancelTok a
    · simp [parseCancelArgs, hc, List.takeWhile_cons, List.dropWhile_cons]
    · simp [parseCancelArgs, hc, List.takeWhile_cons, List.dropWhile_cons, ih]

/-- When the first action yields a command template, the loop hands
exactly the substituted-and-split template to `subprocess.run`,
whatever the outcome of the launch. -/
theorem notifyLoop_attempted (cancel : Bool) (aqmsId : String)
    (run : List String → Except String (Int × String))
    (n : String) (a : Action) (rest : List (String × Action)) (template : String)
    (hc : (if cancel then a.undo_command else some a.command) = some template) :
    (notifyLoop cancel aqmsId run ((n, a) :: rest)).attempted =
      [buildArgv aqmsId template] := by
  rcases hr : run (buildArgv aqmsId template) with err | ⟨rc, outStr⟩ <;>
    simp [notifyLoop, hc, hr]

/-- A flag token occurs among the leading option tokens iff that run of
tokens is nonempty (every token in it is a flag token by construction). -/
theorem exists_mem_takeWhile_iff (p : String → Bool) (l : List String) :
    (∃ x ∈ l.takeWhile p, p x = true) ↔ (!(l.takeWhile p).isEmpty) = true := by
  rcases h2 : l.takeWhile p with _ | ⟨y, ys⟩
  · simp
  · have hmem : y ∈ List.takeWhile p l := by
      rw [h2]
      exact List.mem_cons_self y ys
    have hy := List.mem_takeWhile_imp hmem
    simp only [List.isEmpty_cons, Bool.not_false, iff_true]
    exact ⟨y, List.mem_cons_self y ys, hy⟩

/-- The loop never raises: subprocess exceptions are caught inside it. -/
theorem notifyLoop_error_none (cancel : Bool) (aqmsId : String)
    (run : List String → Except String (Int × String))
    (l : List (String × Action)) :
    (notifyLoop cancel aqmsId run l).error = none := by
  rcases l with _ | ⟨⟨name, act⟩, rest⟩
  · simp [notifyLoop]
  · rcases hc : (if cancel then act.undo_command else some act.command) with _ | template
    · simp [notifyLoop, hc]
    · rcases hr : run (buildArgv aqmsId template) with err | ⟨rc, outStr⟩
      · simp [notifyLoop, hc, hr]
      · simp [notifyLoop, hc, hr]

/-! ### Claims -/

/-- C1 (counterexample): the claim says that a case-insensitive prefix
match triggers the stripping.  With `netid = "UW"` and
`eventid = "UW12345"`, the lowered netid is a prefix of the lowered
identifier, yet the code — which tests whether the lowered netid occurs
verbatim in the unlowered identifier — leaves the identifier unchanged
instead of stripping its first two characters. -/
theorem C1_claim_counterexample :
    (pyLower "UW").data.isPrefixOf (pyLower "UW12345").data = true ∧
    deriveAqmsId "UW" "UW12345" = "UW12345" ∧
    deriveAqmsId "UW" "UW12345" ≠ pySlice2 "UW12345" := by
  refine ⟨by decide, by decide, by decide⟩

/-- C1 (amended): the derived AQMS event identifier equals the input
identifier with its first two characters removed exactly when the
lowercased network id occurs verbatim as a contiguous substring of the
(unmodified) input identifier, and equals the input identifier
unchanged otherwise. -/
theorem C1_derived_event_id (netid eventid : String) :
    (List.IsInfix (pyLower netid).data eventid.data →
      deriveAqmsId netid eventid = pySlice2 eventid) ∧
    (¬ List.IsInfix (pyLower netid).data eventid.data →
      deriveAqmsId netid eventid = eventid) := by
  constructor <;> intro h
  · rw [deriveAqmsId, if_pos ((pyStrIn_iff _ _).mpr h)]
  · rw [deriveAqmsId, if_neg ?_]
    intro hc
    exact h ((pyStrIn_iff _ _).mp hc)

/-- C1 (witness): a matching lowercase id is stripped, a non-occurring
network id leaves the id unchanged. -/
theorem C1_derived_event_id_witness :
    deriveAqmsId "uw" "uw61967101" = "61967101" ∧
    deriveAqmsId "ci" "us1000abcd" = "us1000abcd" :=
  ⟨((C1_derived_event_id "uw" "uw61967101").1 (by decide)).trans (by decide),
   (C1_derived_event_id "ci" "us1000abcd").2 (by decide)⟩

/-- C3: a missing event data directory makes `execute` raise
`NotADirectoryError`, a present directory with a missing `event.xml`
makes it raise `FileNotFoundError`; in both cases the AQMS
configuration has not been read and no subprocess has been launched. -/
theorem C3_missing_inputs_abort (st : ModuleState) (env : Env) :
    (env.dirExists = false →
      NotificationModule.execute st env =
        { error := some PyError.notADirectoryError, configRead := false,
          considered := [], attempted := [], log := [] }) ∧
    (env.dirExists = true → env.eventFileExists = false →
      NotificationModule.execute st env =
        { error := some PyError.fileNotFoundError, configRead := false,
          considered := [], attempted := [], log := [] }) := by
  constructor
  · intro h
    simp [NotificationModule.execute, h]
  · intro hdir hfile
    simp [NotificationModule.execute, hdir, hfile]

/-- C3 (witness): concrete environments with a missing directory and
with a missing `event.xml`. -/
theorem C3_missing_inputs_abort_witness :
    (NotificationModule.execute
        (NotificationModule.init "uw1234" (some false))
        { dirExists := false, eventFileExists := false,
          origin := { netid := "uw" }, notify := [],
          run := fun _ => Except.error "unreachable" } =
      { error := some PyError.notADirectoryError, configRead := false,
        considered := [], attempted := [], log := [] }) ∧
    (NotificationModule.execute
        (NotificationModule.init "uw1234" (some false))
        { dirExists := true, eventFileExists := false,
          origin := { netid := "uw" }, notify := [],
          run := fun _ => Except.error "unreachable" } =
      { error := some PyError.fileNotFoundError, configRead := false,
        considered := [], attempted := [], log := [] }) :=
  ⟨(C3_missing_inputs_abort _ _).1 rfl,
   (C3_missing_inputs_abort _ _).2 rfl rfl⟩

/-- C9: a single call to `execute` hands at most one argument vector to
`subprocess.run`, whatever the configuration, cancel flag, filesystem
state and subprocess outcomes. -/
theorem C9_at_most_one_subprocess (st : ModuleState) (env : Env) :
    (NotificationModule.execute st env).attempted.length ≤ 1 := by
  rw [NotificationModule.execute]
  rcases env.dirExists with _ | _
  · simp
  · rcases env.eventFileExists with _ | _
    · simp
    · rcases st.cancel with _ | cancel
      · simp only [Bool.not_true, if_neg]
        rcases (sortedNotify env.notify).isEmpty with _ | _ <;> simp
      · simp only [Bool.not_true]
        exact notifyLoop_attempted_le_one ..

/-- C2: with cancelling off and at least two configured actions, if
launching the first (in sorted order) action's command raises an
exception, `execute` logs a warning with the command and one with the
error, attempts no other action's command, and propagates no
exception. -/
theorem C2_launch_failure_halts (st : ModuleState) (env : Env)
    (n1 n2 : String) (a1 a2 : Action) (rest : List (String × Action)) (err : String)
    (hdir : env.dirExists = true) (hfile : env.eventFileExists = true)
    (hcancel : st.cancel = some false)
    (hsort : sortedNotify env.notify = (n1, a1) :: (n2, a2) :: rest)
    (hrun : env.run (buildArgv (deriveAqmsId env.origin.netid st.eventid) a1.command) =
      Except.error err) :
    NotificationModule.execute st env =
      { error := none, configRead := true, considered := [n1],
        attempted := [buildArgv (deriveAqmsId env.origin.netid st.eventid) a1.command],
        log := [LogEntry.warn ("Error running command: " ++
                  pyListRepr (buildArgv (deriveAqmsId env.origin.netid st.eventid) a1.command)),
                LogEntry.warn ("Error: " ++ err)] } := by
  rw [NotificationModule.execute]
  simp [hdir, hfile, hcancel, hsort, notifyLoop, hrun]

/-- C2 (witness): two actions `a`, `b`; launching `a`'s command fails,
`b`'s command is never attempted and no exception escapes. -/
theorem C2_launch_failure_halts_witness :
    NotificationModule.execute
        (NotificationModule.init "uw1234" (some false))
        { dirExists := true, eventFileExists := true,
          origin := { netid := "uw" },
          notify := [("a", { command := "touch <EVENT>", undo_command := none }),
                     ("b", { command := "cmd2", undo_command := none })],
          run := fun _ => Except.error "boom" } =
      { error := none, configRead := true, considered := ["a"],
        attempted := [buildArgv (deriveAqmsId "uw" "uw1234") "touch <EVENT>"],
        log := [LogEntry.warn ("Error running command: " ++
                  pyListRepr (buildArgv (deriveAqmsId "uw" "uw1234") "touch <EVENT>")),
                LogEntry.warn ("Error: " ++ "boom")] } :=
  C2_launch_failure_halts _ _ "a" "b"
    { command := "touch <EVENT>", undo_command := none }
    { command := "cmd2", undo_command := none } [] "boom"
    rfl rfl rfl
    (by rw [sortedNotify]
        exact List.mergeSort_of_sorted
          (by simp [List.pairwise_cons, String.le_iff_toList_le]; decide))
    rfl

/-- C4: when cancelling, an action without an `undo_command` makes the
loop break silently: no subprocess is launched for it or any later
action, nothing is logged, and `execute` returns without error. -/
theorem C4_cancel_without_undo (st : ModuleState) (env : Env)
    (n : String) (a : Action) (rest : List (String × Action))
    (hdir : env.dirExists = true) (hfile : env.eventFileExists = true)
    (hcancel : st.cancel = some true)
    (hsort : sortedNotify env.notify = (n, a) :: rest)
    (hundo : a.undo_command = none) :
    NotificationModule.execute st env =
      { error := none, configRead := true, considered := [n],
        attempted := [], log := [] } := by
  rw [NotificationModule.execute]
  simp [hdir, hfile, hcancel, hsort, notifyLoop, hundo]

/-- C4 (witness): cancel is on, the first action has no undo command,
and a second action exists but is never reached. -/
theorem C4_cancel_without_undo_witness :
    NotificationModule.execute
        (NotificationModule.init "uw1234" (some true))
        { dirExists := true, eventFileExists := true,
          origin := { netid := "uw" },
          notify := [("a", { command := "cmd1", undo_command := none }),
                     ("b", { command := "cmd2", undo_command := some "undo2" })],
          run := fun _ => Except.ok (0, "") } =
      { error := none, configRead := true, considered := ["a"],
        attempted := [], log := [] } :=
  C4_cancel_without_undo _ _ "a"
    { command := "cmd1", undo_command := none }
    [("b", { command := "cmd2", undo_command := some "undo2" })]
    rfl rfl rfl
    (by rw [sortedNotify]
        exact List.mergeSort_of_sorted
          (by simp [List.pairwise_cons, String.le_iff_toList_le]; decide))
    rfl

/-- C5: when the selected action's command launches without an
exception, `execute` logs the command line and the completion result
(return code and stdout) and returns at once, for every return code:
a nonzero exit status is not treated as failure and no further action
is attempted. -/
theorem C5_success_returns_ignoring_exit_code (st : ModuleState) (env : Env)
    (n : String) (a : Action) (rest : List (String × Action))
    (cancel : Bool) (template : String) (rc : Int) (outStr : String)
    (hdir : env.dirExists = true) (hfile : env.eventFileExists = true)
    (hcancel : st.cancel = some cancel)
    (hsort : sortedNotify env.notify = (n, a) :: rest)
    (htemplate : (if cancel then a.undo_command else some a.command) = some template)
    (hrun : env.run (buildArgv (deriveAqmsId env.origin.netid st.eventid) template) =
      Except.ok (rc, outStr)) :
    NotificationModule.execute st env =
      { error := none, configRead := true, considered := [n],
        attempted := [buildArgv (deriveAqmsId env.origin.netid st.eventid) template],
        log := [LogEntry.info ("The command to we ran is: " ++
                  String.intercalate " "
                    (buildArgv (deriveAqmsId env.origin.netid st.eventid) template)),
                LogEntry.info ("Return code: " ++ toString rc ++
                  ", stdout is: " ++ outStr)] } := by
  rw [NotificationModule.execute]
  simp [hdir, hfile, hcancel, hsort, notifyLoop, htemplate, hrun]

/-- C5 (witness): the subprocess exits with the nonzero code 7 and
`execute` still returns right after logging, with the second action
unattempted. -/
theorem C5_success_returns_ignoring_exit_code_witness :
    NotificationModule.execute
        (NotificationModule.init "uw1234" (some false))
        { dirExists := true, eventFileExists := true,
          origin := { netid := "uw" },
          notify := [("a", { command := "touch <EVENT>", undo_command := none }),
                     ("b", { command := "cmd2", undo_command := none })],
          run := fun _ => Except.ok (7, "oops") } =
      { error := none, configRead := true, considered := ["a"],
        attempted := [buildArgv (deriveAqmsId "uw" "uw1234") "touch <EVENT>"],
        log := [LogEntry.info ("The command to we ran is: " ++
                  String.intercalate " " (buildArgv (deriveAqmsId "uw" "uw1234") "touch <EVENT>")),
                LogEntry.info ("Return code: " ++ toString (7 : Int) ++
                  ", stdout is: " ++ "oops")] } :=
  C5_success_returns_ignoring_exit_code _ _ "a"
    { command := "touch <EVENT>", undo_command := none }
    [("b", { command := "cmd2", undo_command := none })]
    false "touch <EVENT>" 7 "oops"
    rfl rfl rfl
    (by rw [sortedNotify]
        exact List.mergeSort_of_sorted
          (by simp [List.pairwise_cons, String.le_iff_toList_le]; decide))
    rfl rfl

/-- C6: the argument vector handed to `subprocess.run` is the command
template with the placeholder substituted and then split on whitespace
— substitution happens before splitting — and the substitution
(`pyReplace`) rewrites every occurrence of `<EVENT>`: it is exactly
"split the template at the occurrences of `<EVENT>`, rejoin with the
derived event id", and rejoining the pieces with `<EVENT>` instead
recovers the template. -/
theorem C6_placeholder_substitution (st : ModuleState) (env : Env)
    (n : String) (a : Action) (rest : List (String × Action))
    (hdir : env.dirExists = true) (hfile : env.eventFileExists = true)
    (hcancel : st.cancel = some false)
    (hsort : sortedNotify env.notify = (n, a) :: rest) :
    (NotificationModule.execute st env).attempted =
      [(pyWords (pyReplace "<EVENT>".data
          (deriveAqmsId env.origin.netid st.eventid).data a.command.data)).map
        String.mk] ∧
    (∀ repl s : List Char,
      pyReplace "<EVENT>".data repl s =
        List.intercalate repl (pySplitOnPat "<EVENT>".data s) ∧
      List.intercalate "<EVENT>".data (pySplitOnPat "<EVENT>".data s) = s) := by
  constructor
  · rw [NotificationModule.execute]
    have hl := notifyLoop_attempted false (deriveAqmsId env.origin.netid st.eventid)
      env.run n a rest a.command (by simp)
    simp [hdir, hfile, hcancel, hsort, hl, buildArgv]
  · exact fun repl s =>
      ⟨pyReplace_eq_intercalate _ _ _, intercalate_pySplitOnPat _ _⟩

/-- C6 (witness): with event id `uw1234` (stripped to `1234`) and the
template `touch <EVENT>`, the launched argument vector is the
substituted, then split, command. -/
theorem C6_placeholder_substitution_witness :
    (NotificationModule.execute
        (NotificationModule.init "uw1234" (some false))
        { dirExists := true, eventFileExists := true,
          origin := { netid := "uw" },
          notify := [("a", { command := "touch <EVENT>", undo_command := none })],
          run := fun _ => Except.ok (0, "") }).attempted =
      [(pyWords (pyReplace "<EVENT>".data
          (deriveAqmsId "uw" "uw1234").data "touch <EVENT>".data)).map String.mk] :=
  (C6_placeholder_substitution _ _ "a"
    { command := "touch <EVENT>", undo_command := none } []
    rfl rfl rfl
    (by rw [sortedNotify]
        exact List.mergeSort_of_sorted
          (by simp [List.pairwise_cons, String.le_iff_toList_le]))).1

/-- C7: the loop visits the actions in sorted key order, so the action
it starts with is a configured action whose name is lexicographically
least among all configured action names. -/
theorem C7_sorted_first_action (st : ModuleState) (env : Env)
    (cancel : Bool) (n : String) (a : Action) (rest : List (String × Action))
    (hdir : env.dirExists = true) (hfile : env.eventFileExists = true)
    (hcancel : st.cancel = some cancel)
    (hsort : sortedNotify env.notify = (n, a) :: rest) :
    (NotificationModule.execute st env).considered = [n] ∧
    (n, a) ∈ env.notify ∧
    ∀ p ∈ env.notify, n ≤ p.1 := by
  have htrans : ∀ x y z : String × Action,
      (fun u v : String × Action => decide (u.1 ≤ v.1)) x y = true →
      (fun u v : String × Action => decide (u.1 ≤ v.1)) y z = true →
      (fun u v : String × Action => decide (u.1 ≤ v.1)) x z = true := by
    intro x y z hxy hyz
    simp only [decide_eq_true_eq] at hxy hyz ⊢
    exact le_trans hxy hyz
  have htotal : ∀ x y : String × Action,
      ((fun u v : String × Action => decide (u.1 ≤ v.1)) x y ||
       (fun u v : String × Action => decide (u.1 ≤ v.1)) y x) = true := by
    intro x y
    simp only [Bool.or_eq_true, decide_eq_true_eq]
    exact le_total x.1 y.1
  have hperm : List.Perm (sortedNotify env.notify) env.notify :=
    List.mergeSort_perm env.notify _
  have hsorted := List.sorted_mergeSort htrans htotal env.notify
  rw [show List.mergeSort env.notify (fun u v => decide (u.1 ≤ v.1)) =
        sortedNotify env.notify from rfl, hsort] at hsorted
  rw [hsort] at hperm
  refine ⟨?_, ?_, ?_⟩
  · rw [NotificationModule.execute]
    simp only [hdir, hfile, hcancel, Bool.not_true]
    simp [hsort, notifyLoop_considered]
  · exact hperm.mem_iff.mp (List.mem_cons_self (n, a) rest)
  · intro p hp
    have hp' : p ∈ (n, a) :: rest := hperm.mem_iff.mpr hp
    rcases List.mem_cons.mp hp' with h | h
    · rw [h]
    · have := (List.pairwise_cons.mp hsorted).1 p h
      simpa using this

/-- C7 (witness): with actions configured in the order `b`, `a`, the
loop starts with `a`, which is a configured action and has the
lexicographically smallest name. -/
theorem C7_sorted_first_action_witness :
    (NotificationModule.execute
        (NotificationModule.init "uw1234" (some false))
        { dirExists := true, eventFileExists := true,
          origin := { netid := "uw" },
          notify := [("b", { command := "cmd2", undo_command := none }),
                     ("a", { command := "cmd1", undo_command := none })],
          run := fun _ => Except.ok (0, "") }).considered = ["a"] ∧
    ("a", { command := "cmd1", undo_command := none : Action }) ∈
      [("b", { command := "cmd2", undo_command := none : Action }),
       ("a", { command := "cmd1", undo_command := none })] ∧
    ∀ p ∈ [("b", { command := "cmd2", undo_command := none : Action }),
           ("a", { command := "cmd1", undo_command := none })],
      "a" ≤ p.1 :=
  C7_sorted_first_action _ _ false "a"
    { command := "cmd1", undo_command := none }
    [("b", { command := "cmd2", undo_command := none })]
    rfl rfl rfl
    (by simp [sortedNotify, List.mergeSort, List.merge, String.le_iff_toList_le]
        decide)

/-- C8: `parseArgs` sets the module's `cancel` attribute to true exactly
when a `-c` / `--cancel` token is among the leading option tokens (and
to false by default, in particular on an empty argument list), leaves
the event id alone, and returns the remaining arguments — everything
from the first non-option token on — unchanged. -/
theorem C8_parse_cancel_flag (st : ModuleState) (arglist : List String) :
    (NotificationModule.parseArgs st arglist).1.cancel =
      some (!(arglist.takeWhile isCancelTok).isEmpty) ∧
    ((NotificationModule.parseArgs st arglist).1.cancel = some true ↔
      ∃ x ∈ arglist.takeWhile isCancelTok, isCancelTok x = true) ∧
    (NotificationModule.parseArgs st arglist).2 = arglist.dropWhile isCancelTok ∧
    (NotificationModule.parseArgs st arglist).1.eventid = st.eventid := by
  refine ⟨?_, ?_, ?_, ?_⟩
  · simp [NotificationModule.parseArgs, parseCancelArgs_eq]
  · simp only [NotificationModule.parseArgs, parseCancelArgs_eq, Option.some_inj]
    rw [exists_mem_takeWhile_iff]
  · simp [NotificationModule.parseArgs, parseCancelArgs_eq]
  · simp [NotificationModule.parseArgs]

/-- C10: constructing the module with `cancel=None` leaves the `cancel`
attribute unassigned; `execute` on a valid event directory with a
nonempty notification configuration then raises `AttributeError` at the
first loop iteration (after the configuration is read, before any
subprocess); calling `parseArgs` first assigns the attribute, after
which `execute` cannot raise `AttributeError`. -/
theorem C10_cancel_none_attribute_error (eventid : String) (env : Env)
    (args : List String)
    (hdir : env.dirExists = true) (hfile : env.eventFileExists = true)
    (hne : env.notify ≠ []) :
    (NotificationModule.init eventid none).cancel = none ∧
    NotificationModule.execute (NotificationModule.init eventid none) env =
      { error := some PyError.attributeError, configRead := true,
        considered := [], attempted := [], log := [] } ∧
    (NotificationModule.execute
        (NotificationModule.parseArgs (NotificationModule.init eventid none) args).1
        env).error ≠ some PyError.attributeError := by
  have hlen : (sortedNotify env.notify).length = env.notify.length :=
    List.length_mergeSort ..
  have hs : (sortedNotify env.notify).isEmpty = false := by
    rcases h : sortedNotify env.notify with _ | ⟨x, xs⟩
    · rw [h] at hlen
      rcases hn : env.notify with _ | _
      · exact absurd hn hne
      · rw [hn] at hlen
        simp at hlen
    · simp
  refine ⟨rfl, ?_, ?_⟩
  · rw [NotificationModule.execute]
    simp [hdir, hfile, NotificationModule.init, hs]
  · rw [NotificationModule.execute]
    simp [hdir, hfile, NotificationModule.parseArgs, notifyLoop_error_none]

/-- C10 (witness): a concrete one-action configuration: `cancel=None`
construction makes `execute` raise `AttributeError`, while running
`parseArgs []` first makes the same call go through without it. -/
theorem C10_cancel_none_attribute_error_witness :
    (NotificationModule.init "uw1234" none).cancel = none ∧
    NotificationModule.execute (NotificationModule.init "uw1234" none)
        { dirExists := true, eventFileExists := true,
          origin := { netid := "uw" },
          notify := [("a", { command := "cmd1", undo_command := none })],
          run := fun _ => Except.ok (0, "") } =
      { error := some PyError.attributeError, configRead := true,
        considered := [], attempted := [], log := [] } ∧
    (NotificationModule.execute
        (NotificationModule.parseArgs (NotificationModule.init "uw1234" none) []).1
        { dirExists := true, eventFileExists := true,
          origin := { netid := "uw" },
          notify := [("a", { command := "cmd1", undo_command := none })],
          run := fun _ => Except.ok (0, "") }).error ≠ some PyError.attributeError :=
  C10_cancel_none_attribute_error "uw1234" _ [] rfl rfl (by simp)

end AqmsNotify
